import Mathlib

/-!
Verification of the content lifecycle and repository layer of the
the-planet-mars.org blog (src/website).

Shallow embedding conventions:
* Python datetimes are modelled as natural-number timestamps.
* Python string attributes that handlers may set to a missing form value
  (form.get returns None when the field is absent) are modelled as
  Option String; Python truthiness of a string (falsy exactly for None
  and the empty string) is pyFalsy below.
* The Postgres posts table is a list of PostRow values; the columns are
  the thirteen columns named in the INSERT of PostRepository.save plus
  the two columns title_it and content_it added by
  migrate_v1_multi_lang.py.
* A raised Python exception or an HTTP error response is an Except.error
  carrying an Err value.
* Each route handler returns, besides its result, the list of SQL
  queries it executed, so that statements about which storage queries a
  request issues can be proved.
-/

/-- PostStatus from src/domain/models.py: DRAFT = "draft",
PUBLISHED = "published". -/
inductive PostStatus
  | draft
  | published
deriving DecidableEq

/-- The string stored in the database for a status
(PostStatus.value in Python, the Enum value). -/
def PostStatus.value : PostStatus → String
  | .draft => "draft"
  | .published => "published"

/-- The Post dataclass of src/domain/models.py.  title and content are
Option String because the admin handlers assign form.get results to
them, and form.get returns None for a missing field; the dataclass
annotation str is not enforced at runtime. -/
structure Post where
  id : String
  title : Option String
  title_it : Option String
  slug : String
  content : Option String
  content_it : Option String
  media_url : Option String
  media_type : Option String
  tags : List String
  status : PostStatus
  language : String
  views : Nat
  likes : Nat
  created_at : Nat
  published_at : Option Nat
deriving DecidableEq

/-- A row of the posts table.  status is the stored string
("draft" or "published"); title_it and content_it are the columns added
by migrate_v1_multi_lang.py. -/
structure PostRow where
  id : String
  title : Option String
  title_it : Option String
  slug : String
  content : Option String
  content_it : Option String
  media_url : Option String
  media_type : Option String
  tags : List String
  status : String
  language : String
  views : Nat
  likes : Nat
  created_at : Nat
  published_at : Option Nat
deriving DecidableEq

/-- The Subscriber dataclass of src/domain/models.py; the subscribers
table stores exactly these three columns, so the same structure serves
as the row type. -/
structure Subscriber where
  email : String
  subscribed_at : Nat
  is_active : Bool
deriving DecidableEq

/-- Subscriber.create(email): subscribed_at defaults to the current
time, is_active to True. -/
def Subscriber.create (email : String) (now : Nat) : Subscriber :=
  { email := email, subscribed_at := now, is_active := true }

/-- The Admin dataclass of src/domain/models.py; also the row type of
the admins table. -/
structure Admin where
  username : String
  password_hash : String
deriving DecidableEq

/-- Raised Python exceptions and HTTP error responses.
valueError is what the spec taxonomy calls ValidationError (raised by
Post.publish); typeError is raised by a constructor call with missing
required arguments; attributeError by attribute access or assignment on
None; http c models fastapi.HTTPException(status_code = c). -/
inductive Err
  | valueError
  | typeError
  | attributeError
  | http (code : Nat)
deriving DecidableEq

/-- Python truthiness of a string-or-None value: falsy exactly for None
and for the empty string. -/
def pyFalsy : Option String → Bool
  | none => true
  | some s => s == ""

/-- Post.publish of src/domain/models.py lines 45-50:
raises ValueError("Post must have a title to be published") when
`not self.title`, i.e. when the title is None or empty, BEFORE any
assignment; otherwise sets status to PUBLISHED and stamps published_at
with the current time and returns self.  The second component is the
state of the post object after the call (unchanged when the exception
was raised, since the raise precedes both assignments). -/
def Post.publish (p : Post) (now : Nat) : Except Err Unit × Post :=
  if pyFalsy p.title then
    (Except.error Err.valueError, p)
  else
    (Except.ok (), { p with status := PostStatus.published, published_at := some now })

/-- Post.increment_views of src/domain/models.py: self.views += 1. -/
def Post.increment_views (p : Post) : Post :=
  { p with views := p.views + 1 }

namespace PostRepository

/-- The row written by the INSERT of PostRepository.save
(src/persistence/repositories.py lines 10-32).  The column list is
(id, title, slug, content, media_url, media_type, tags, status,
language, views, likes, created_at, published_at); the columns title_it
and content_it are NOT in the column list, so a newly inserted row has
NULL in both. -/
def rowOfPost (p : Post) : PostRow :=
  { id := p.id
    title := p.title
    title_it := none
    slug := p.slug
    content := p.content
    content_it := none
    media_url := p.media_url
    media_type := p.media_type
    tags := p.tags
    status := p.status.value
    language := p.language
    views := p.views
    likes := p.likes
    created_at := p.created_at
    published_at := p.published_at }

/-- The ON CONFLICT (id) DO UPDATE branch of PostRepository.save: the
SET list names title, slug, content, media_url, media_type, tags,
status, language, views, likes, published_at - it does NOT name
created_at, title_it or content_it, which therefore keep their stored
values. -/
def updRow (p : Post) (r : PostRow) : PostRow :=
  if r.id == p.id then
    { r with
      title := p.title
      slug := p.slug
      content := p.content
      media_url := p.media_url
      media_type := p.media_type
      tags := p.tags
      status := p.status.value
      language := p.language
      views := p.views
      likes := p.likes
      published_at := p.published_at }
  else r

/-- PostRepository.save: INSERT ... ON CONFLICT (id) DO UPDATE, an
upsert keyed by id (id carries the table's unique constraint, per the
ON CONFLICT target and the spec's "opaque unique id"). -/
def save (p : Post) (db : List PostRow) : List PostRow :=
  if db.any (fun r => r.id == p.id) then db.map (updRow p)
  else db ++ [rowOfPost p]

/-- PostRepository._to_entity (src/persistence/repositories.py
lines 74-89).  The Python body calls the Post dataclass constructor
with the thirteen keyword arguments id, title, slug, content,
media_url, media_type, tags, status, language, views, likes,
created_at, published_at - but Post also declares title_it and
content_it as fields WITHOUT default values, so the generated
constructor requires them and this call raises
TypeError: missing 2 required positional arguments: title_it and
content_it.  Every call of _to_entity therefore raises, which this
embedding records as Except.error Err.typeError. -/
def to_entity (_ : PostRow) : Except Err Post :=
  Except.error Err.typeError

/-- The list comprehension [self._to_entity(row) for row in rows]:
maps each fetched row, propagating the first raised exception. -/
def mapToEntity : List PostRow → Except Err (List Post)
  | [] => Except.ok []
  | r :: rs =>
    match to_entity r with
    | Except.error e => Except.error e
    | Except.ok p =>
      match mapToEntity rs with
      | Except.error e => Except.error e
      | Except.ok ps => Except.ok (p :: ps)

/-- The fetchrow of find_by_id: SELECT * FROM posts WHERE id = $1.
fetchrow returns the first matching row or None. -/
def find_by_id_row (db : List PostRow) (post_id : String) : Option PostRow :=
  db.find? (fun r => r.id == post_id)

/-- PostRepository.find_by_id: point lookup, then _to_entity on a found
row (which raises, see to_entity). -/
def find_by_id (db : List PostRow) (post_id : String) : Except Err (Option Post) :=
  match find_by_id_row db post_id with
  | some r => (to_entity r).map some
  | none => Except.ok none

/-- The fetchrow of find_by_slug: SELECT * FROM posts WHERE slug = $1.
Note there is no status and no language condition in the WHERE
clause. -/
def find_by_slug_row (db : List PostRow) (slug : String) : Option PostRow :=
  db.find? (fun r => r.slug == slug)

/-- PostRepository.find_by_slug: point lookup by slug, then _to_entity
on a found row (which raises, see to_entity). -/
def find_by_slug (db : List PostRow) (slug : String) : Except Err (Option Post) :=
  match find_by_slug_row db slug with
  | some r => (to_entity r).map some
  | none => Except.ok none

/-- ORDER BY published_at DESC on nullable timestamps: Postgres sorts
DESC with NULLS FIRST, so a NULL precedes every value and larger
timestamps precede smaller ones.  publishedBefore a b says a may come
no later than b in that order. -/
def publishedBefore (a b : PostRow) : Bool :=
  match a.published_at, b.published_at with
  | none, _ => true
  | some _, none => false
  | some x, some y => y ≤ x

/-- The row set of PostRepository.list_published
(src/persistence/repositories.py lines 46-51):
SELECT * FROM posts WHERE status = 'published' AND language = $1
ORDER BY published_at DESC LIMIT $2 OFFSET $3.
OFFSET skips rows before LIMIT caps the count.  The sort is modelled
with a stable merge sort; SQL leaves the relative order of rows with
equal published_at unspecified. -/
def list_published_rows (db : List PostRow) (lang : String) (limit offset : Nat) :
    List PostRow :=
  ((((db.filter (fun r => r.status == "published" && r.language == lang)).mergeSort
      publishedBefore).drop offset).take limit)

/-- PostRepository.list_published: the query above, each row mapped by
_to_entity. -/
def list_published (db : List PostRow) (lang : String) (limit offset : Nat) :
    Except Err (List Post) :=
  mapToEntity (list_published_rows db lang limit offset)

/-- title ILIKE '%q%' - case-insensitive containment.  Modelled for
query strings without SQL wildcard characters; a NULL column never
matches. -/
def ilikeContains (hay : Option String) (needle : String) : Bool :=
  match hay with
  | none => false
  | some h =>
    let hc := h.toLower.toList
    let nc := needle.toLower.toList
    (List.range (hc.length + 1)).any (fun i => nc.isPrefixOf (hc.drop i))

/-- The row set of PostRepository.search:
SELECT * FROM posts WHERE status = 'published' AND language = $1 AND
(title ILIKE $2 OR content ILIKE $2) ORDER BY published_at DESC. -/
def search_rows (db : List PostRow) (q : String) (lang : String) : List PostRow :=
  ((db.filter (fun r =>
      r.status == "published" && r.language == lang &&
        (ilikeContains r.title q || ilikeContains r.content q))).mergeSort
    publishedBefore)

/-- PostRepository.search: the query above, rows mapped by _to_entity. -/
def search (db : List PostRow) (q : String) (lang : String) : Except Err (List Post) :=
  mapToEntity (search_rows db q lang)

/-- PostRepository.get_stats: SELECT COUNT(*), SUM(views) FROM posts
WHERE status = 'published' AND language = $1.  SUM over no rows is
NULL, which the Python `if row["total_views"]` guard turns into 0;
summing the views directly gives the same value. -/
def get_stats (db : List PostRow) (lang : String) : Nat × Nat :=
  let rs := db.filter (fun r => r.status == "published" && r.language == lang)
  (rs.length, (rs.map (fun r => r.views)).sum)

end PostRepository

namespace SubscriberRepository

/-- SubscriberRepository.save (src/persistence/repositories.py
lines 95-102): INSERT INTO subscribers (email, subscribed_at,
is_active) ... ON CONFLICT (email) DO UPDATE SET
is_active = EXCLUDED.is_active.  The conflict branch updates only
is_active; subscribed_at keeps its stored value. -/
def save (s : Subscriber) (db : List Subscriber) : List Subscriber :=
  if db.any (fun r => r.email == s.email) then
    db.map (fun r => if r.email == s.email then { r with is_active := s.is_active } else r)
  else db ++ [s]

end SubscriberRepository

namespace AdminRepository

/-- AdminRepository.save: INSERT INTO admins (username, password_hash)
... ON CONFLICT (username) DO UPDATE SET
password_hash = EXCLUDED.password_hash. -/
def save (a : Admin) (db : List Admin) : List Admin :=
  if db.any (fun r => r.username == a.username) then
    db.map (fun r => if r.username == a.username then { r with password_hash := a.password_hash } else r)
  else db ++ [a]

end AdminRepository

namespace Main

/-- SUPPORTED_LANGS of src/main.py line 19. -/
def SUPPORTED_LANGS : List String := ["en", "it"]

/-- The SQL statements a handler can execute, for tracing which storage
queries a request issues. -/
inductive Query
  | listPublishedQ
  | getStatsQ
  | findBySlugQ
  | findByIdQ
  | savePostQ
  | saveSubscriberQ
  | searchQ
deriving DecidableEq

/-- Response of the post detail route: the rendered 404 template or the
rendered post page. -/
inductive DetailResp
  | notFoundPage
  | postPage (p : Post)
deriving DecidableEq

/-- Response of the like route: the already-acknowledged JSON, the
success JSON carrying the likes value, or a redirect. -/
inductive LikeResp
  | jsonAlready
  | jsonLiked (likes : Nat)
  | redirectResp (path : String)
deriving DecidableEq

/-- Response of the subscribe route. -/
inductive SubResp
  | jsonOk
  | redirectResp (path : String)
deriving DecidableEq

/-- Response of the admin edit route. -/
inductive EditResp
  | redirectLogin
  | redirectAdmin
deriving DecidableEq

/-- home (src/main.py lines 238-249): reject an unsupported language
with HTTPException(404) before any query; otherwise list_published with
limit 5 and then get_stats.  When list_published raises, get_stats is
never reached. -/
def home (lang : String) (db : List PostRow) :
    List Query × Except Err (List Post × Nat × Nat) :=
  if lang ∈ SUPPORTED_LANGS then
    match PostRepository.list_published db lang 5 0 with
    | Except.error e => ([Query.listPublishedQ], Except.error e)
    | Except.ok posts =>
      ([Query.listPublishedQ, Query.getStatsQ],
        Except.ok (posts, PostRepository.get_stats db lang))
  else ([], Except.error (Err.http 404))

/-- post_detail (src/main.py lines 252-261): language check first, then
find_by_slug; a missing post renders the 404 template; a found post has
its views incremented and is saved, then rendered. -/
def post_detail (lang slug : String) (db : List PostRow) :
    List Query × Except Err (DetailResp × List PostRow) :=
  if lang ∈ SUPPORTED_LANGS then
    match PostRepository.find_by_slug db slug with
    | Except.error e => ([Query.findBySlugQ], Except.error e)
    | Except.ok none => ([Query.findBySlugQ], Except.ok (DetailResp.notFoundPage, db))
    | Except.ok (some p) =>
      let p2 := p.increment_views
      ([Query.findBySlugQ, Query.savePostQ],
        Except.ok (DetailResp.postPage p2, PostRepository.save p2 db))
  else ([], Except.error (Err.http 404))

/-- archive (src/main.py lines 264-269): language check, then
list_published with limit 100. -/
def archive (lang : String) (db : List PostRow) : List Query × Except Err (List Post) :=
  if lang ∈ SUPPORTED_LANGS then
    match PostRepository.list_published db lang 100 0 with
    | Except.error e => ([Query.listPublishedQ], Except.error e)
    | Except.ok posts => ([Query.listPublishedQ], Except.ok posts)
  else ([], Except.error (Err.http 404))

/-- api_list_posts (src/main.py lines 289-309): language check, then
list_published with the given limit and offset. -/
def api_list_posts (lang : String) (offset limit : Nat) (db : List PostRow) :
    List Query × Except Err (List Post) :=
  if lang ∈ SUPPORTED_LANGS then
    match PostRepository.list_published db lang limit offset with
    | Except.error e => ([Query.listPublishedQ], Except.error e)
    | Except.ok posts => ([Query.listPublishedQ], Except.ok posts)
  else ([], Except.error (Err.http 404))

/-- search (src/main.py lines 342-347): language check, then the
repository search. -/
def search (lang q : String) (db : List PostRow) : List Query × Except Err (List Post) :=
  if lang ∈ SUPPORTED_LANGS then
    match PostRepository.search db q lang with
    | Except.error e => ([Query.searchQ], Except.error e)
    | Except.ok posts => ([Query.searchQ], Except.ok posts)
  else ([], Except.error (Err.http 404))

/-- rss_feed (src/main.py lines 350-371): language check, then
list_published with the default limit 10.  The XML rendering of the
fetched posts is elided; the response value carries the posts the feed
is built from. -/
def rss_feed (lang : String) (db : List PostRow) : List Query × Except Err (List Post) :=
  if lang ∈ SUPPORTED_LANGS then
    match PostRepository.list_published db lang 10 0 with
    | Except.error e => ([Query.listPublishedQ], Except.error e)
    | Except.ok posts => ([Query.listPublishedQ], Except.ok posts)
  else ([], Except.error (Err.http 404))

/-- subscribe (src/main.py lines 272-286): language check; if the email
form value is truthy, Subscriber.create and save; respond with JSON or
a redirect to the language home. -/
def subscribe (lang : String) (email : Option String) (wantsJson : Bool) (now : Nat)
    (subs : List Subscriber) : List Query × Except Err (SubResp × List Subscriber) :=
  if lang ∈ SUPPORTED_LANGS then
    let saved :=
      match email with
      | some e =>
        if e == "" then ([], subs)
        else ([Query.saveSubscriberQ], SubscriberRepository.save (Subscriber.create e now) subs)
      | none => ([], subs)
    let resp := if wantsJson then SubResp.jsonOk else SubResp.redirectResp ("/" ++ lang)
    (saved.1, Except.ok (resp, saved.2))
  else ([], Except.error (Err.http 404))

/-- Python str.split(",") at the character level: the (possibly empty)
chunks between commas.  On the empty string it yields one empty chunk,
exactly as Python does. -/
def splitCommaChars : List Char → List (List Char)
  | [] => [[]]
  | c :: rest =>
    match splitCommaChars rest with
    | [] => [[c]]
    | g :: gs => if c = ',' then [] :: g :: gs else (c :: g) :: gs

/-- Python str.split(",") on strings. -/
def pySplitComma (s : String) : List String :=
  (splitCommaChars s.data).map (fun cs => String.mk cs)

/-- The liked_posts cookie parse of post_like:
liked_posts.split(",") if liked_posts else []. -/
def parseLikedCookie (c : String) : List String :=
  if c == "" then [] else pySplitComma c

/-- post_like (src/main.py lines 312-339).  Language check first; then
the cookie list is consulted: a slug already present answers
already-acknowledged (JSON) or a redirect, with no query and no
Set-Cookie.  Otherwise find_by_slug runs (raising TypeError whenever a
row matches, see PostRepository.to_entity); a found post gets
likes += 1 and is saved; the slug is appended to the list and the
joined list is set as the new cookie value (the Option String in the
result is the Set-Cookie value, none when no cookie is set).  A missing
post is not an error: the response reports success with likes 0 and no
save runs. -/
def post_like (lang slug : String) (likedCookie : String) (wantsJson : Bool)
    (db : List PostRow) :
    List Query × Except Err (LikeResp × List PostRow × Option String) :=
  if lang ∈ SUPPORTED_LANGS then
    let likedList := parseLikedCookie likedCookie
    if likedList.contains slug then
      let resp := if wantsJson then LikeResp.jsonAlready
                  else LikeResp.redirectResp ("/" ++ lang ++ "/post/" ++ slug)
      ([], Except.ok (resp, db, none))
    else
      match PostRepository.find_by_slug db slug with
      | Except.error e => ([Query.findBySlugQ], Except.error e)
      | Except.ok found =>
        let step :=
          match found with
          | some p =>
            let p2 := { p with likes := p.likes + 1 }
            ([Query.findBySlugQ, Query.savePostQ], PostRepository.save p2 db, some p2.likes)
          | none => ([Query.findBySlugQ], db, (none : Option Nat))
        let newCookie := String.intercalate "," (likedList ++ [slug])
        let resp := if wantsJson then LikeResp.jsonLiked (step.2.2.getD 0)
                    else LikeResp.redirectResp ("/" ++ lang ++ "/post/" ++ slug)
        (step.1, Except.ok (resp, step.2.1, some newCookie))
  else ([], Except.error (Err.http 404))

/-- Python str.strip(): drop whitespace from both ends. -/
def pyStrip (s : String) : String :=
  String.mk (((s.data.dropWhile fun c => c.isWhitespace).reverse.dropWhile
    fun c => c.isWhitespace).reverse)

/-- The tag parse of the admin editor handlers:
[t.strip() for t in form.get("tags", "").split(",") if t.strip()]. -/
def parseTags (s : String) : List String :=
  ((pySplitComma s).map pyStrip).filter (fun t => t != "")

/-- The edit form fields read by admin_post_edit_post; each form.get
returns None for a missing field.  tags defaults to the empty string at
the read site (form.get with a default). -/
structure EditForm where
  title : Option String
  title_it : Option String
  content : Option String
  content_it : Option String
  media_url : Option String
  media_type : Option String
  tags : Option String
  status : Option String
deriving DecidableEq

/-- The field-assignment and status logic of admin_post_edit_post
(src/main.py lines 154-166), applied to the fetched post.  slugify is
the third-party slug function, passed as a parameter: the handler sets
post.slug = slugify(post.title) after assigning the form title.  Then
lines 162-166: if the form status is "published" and the post is not
already published, post.publish() runs (and can raise ValueError on a
falsy title, discarding the request before any save); else if the form
status is "draft", status is set to DRAFT directly, with no other
assignment - in particular published_at is untouched. -/
def admin_edit_apply (slugify : Option String → String) (p : Post) (f : EditForm)
    (now : Nat) : Except Err Post :=
  let q : Post := { p with
    title := f.title
    title_it := f.title_it
    slug := slugify f.title
    content := f.content
    content_it := f.content_it
    media_url := f.media_url
    media_type := f.media_type
    tags := parseTags (f.tags.getD "") }
  if f.status == some "published" && !(q.status == PostStatus.published) then
    match q.publish now with
    | (Except.error e, _) => Except.error e
    | (Except.ok _, q2) => Except.ok q2
  else if f.status == some "draft" then
    Except.ok { q with status := PostStatus.draft }
  else Except.ok q

/-- admin_post_edit_post (src/main.py lines 148-167) end to end: the
auth guard redirects to the login page when no admin session is set;
otherwise find_by_id runs (raising TypeError whenever the row exists,
see PostRepository.to_entity).  When find_by_id returns None, the
handler assigns post.title with post bound to None, which raises
AttributeError.  On a fetched post the edit is applied and the result
saved. -/
def admin_post_edit_post (slugify : Option String → String) (authed : Bool)
    (post_id : String) (f : EditForm) (now : Nat) (db : List PostRow) :
    List Query × Except Err (EditResp × List PostRow) :=
  if authed then
    match PostRepository.find_by_id db post_id with
    | Except.error e => ([Query.findByIdQ], Except.error e)
    | Except.ok none => ([Query.findByIdQ], Except.error Err.attributeError)
    | Except.ok (some p) =>
      match admin_edit_apply slugify p f now with
      | Except.error e => ([Query.findByIdQ], Except.error e)
      | Except.ok p2 =>
        ([Query.findByIdQ, Query.savePostQ],
          Except.ok (EditResp.redirectAdmin, PostRepository.save p2 db))
  else ([], Except.ok (EditResp.redirectLogin, db))

end Main

/-- A published post used as concrete input in several statements. -/
def examplePublished : Post :=
  { id := "p1"
    title := some "Water ice detected"
    title_it := none
    slug := "water-ice-detected"
    content := some "body"
    content_it := none
    media_url := none
    media_type := none
    tags := ["water"]
    status := PostStatus.published
    language := "en"
    views := 3
    likes := 1
    created_at := 100
    published_at := some 105 }

/-- The row examplePublished is stored as. -/
def exampleRow : PostRow := PostRepository.rowOfPost examplePublished

/-- A post carrying secondary-language fields, for the round-trip
statements. -/
def examplePostIt : Post :=
  { examplePublished with
    id := "p3"
    title_it := some "Ghiaccio rilevato"
    content_it := some "testo" }

/-- A draft row reachable by slug, for the draft-leak statements. -/
def exampleDraftRow : PostRow :=
  { id := "p2"
    title := some "Hidden draft"
    title_it := none
    slug := "hidden-draft"
    content := some "secret"
    content_it := none
    media_url := none
    media_type := none
    tags := []
    status := "draft"
    language := "en"
    views := 0
    likes := 0
    created_at := 50
    published_at := none }

/-- An edit form that reverts a post to draft. -/
def exampleDraftForm : Main.EditForm :=
  { title := some "Water ice detected"
    title_it := none
    content := some "body"
    content_it := none
    media_url := none
    media_type := none
    tags := some "water"
    status := some "draft" }

/-- The edit form with a published status, used in witnesses. -/
def examplePublishForm : Main.EditForm :=
  { exampleDraftForm with status := some "published" }

/-! ## Helper lemmas -/

/-- Every successful result of the row-to-entity list mapping is empty,
since _to_entity raises on every row. -/
theorem mapToEntity_ok (l : List PostRow) (ps : List Post)
    (h : PostRepository.mapToEntity l = Except.ok ps) : l = [] ∧ ps = [] := by
  cases l with
  | nil =>
    simp only [PostRepository.mapToEntity] at h
    cases h
    exact ⟨rfl, rfl⟩
  | cons r rs =>
    simp [PostRepository.mapToEntity, PostRepository.to_entity] at h

/-- The DESC-with-nulls-first comparator is transitive. -/
theorem publishedBefore_trans (a b c : PostRow)
    (hab : PostRepository.publishedBefore a b = true)
    (hbc : PostRepository.publishedBefore b c = true) :
    PostRepository.publishedBefore a c = true := by
  unfold PostRepository.publishedBefore at *
  rcases ha : a.published_at with _ | x <;> rcases hb : b.published_at with _ | y <;>
    rcases hc : c.published_at with _ | z <;> simp_all <;> omega

/-- The DESC-with-nulls-first comparator is total. -/
theorem publishedBefore_total (a b : PostRow) :
    (PostRepository.publishedBefore a b || PostRepository.publishedBefore b a) = true := by
  unfold PostRepository.publishedBefore
  rcases a.published_at with _ | x <;> rcases b.published_at with _ | y <;> simp <;> omega

/-- The list_published result rows form a sublist of the sorted
filtered rows. -/
theorem list_published_rows_sublist (db : List PostRow) (lang : String) (limit offset : Nat) :
    (PostRepository.list_published_rows db lang limit offset).Sublist
      ((db.filter (fun r => r.status == "published" && r.language == lang)).mergeSort
        PostRepository.publishedBefore) := by
  unfold PostRepository.list_published_rows
  exact (List.take_sublist _ _).trans (List.drop_sublist _ _)

/-- updRow never changes the id column. -/
theorem updRow_id (p : Post) (r : PostRow) : (PostRepository.updRow p r).id = r.id := by
  unfold PostRepository.updRow
  cases h : r.id == p.id <;> simp [h]

/-- Applying the conflict update twice equals applying it once. -/
theorem updRow_idem (p : Post) (r : PostRow) :
    PostRepository.updRow p (PostRepository.updRow p r) = PostRepository.updRow p r := by
  unfold PostRepository.updRow
  cases h : r.id == p.id <;> simp [h]

/-- PostRepository.save is idempotent. -/
theorem post_save_idem (p : Post) (db : List PostRow) :
    PostRepository.save p (PostRepository.save p db) = PostRepository.save p db := by
  unfold PostRepository.save
  cases h : db.any (fun r => r.id == p.id) with
  | true =>
    simp only [h, if_true]
    have hany : ((db.map (PostRepository.updRow p)).any (fun r => r.id == p.id)) = true := by
      rw [List.any_map]
      have hfun : ((fun r : PostRow => r.id == p.id) ∘ PostRepository.updRow p)
          = fun r : PostRow => r.id == p.id := by
        funext r
        simp [Function.comp, updRow_id]
      rw [hfun, h]
    simp only [hany, if_true]
    rw [List.map_map]
    exact List.map_congr_left (fun r _ => updRow_idem p r)
  | false =>
    simp only [h, Bool.false_eq_true, if_false]
    have hany : ((db ++ [PostRepository.rowOfPost p]).any (fun r => r.id == p.id)) = true := by
      rw [List.any_append]
      have : ((PostRepository.rowOfPost p).id == p.id) = true := by
        simp [PostRepository.rowOfPost]
      simp [this]
    simp only [hany, if_true]
    rw [List.map_append]
    have hdb : db.map (PostRepository.updRow p) = db := by
      have hall := List.any_eq_false.mp h
      have : db.map (PostRepository.updRow p) = db.map id := by
        refine List.map_congr_left (fun r hr => ?_)
        have hne : (r.id == p.id) = false := by
          have := hall r hr
          simpa using this
        unfold PostRepository.updRow
        simp [hne]
      simpa using this
    have hrow : PostRepository.updRow p (PostRepository.rowOfPost p)
        = PostRepository.rowOfPost p := by
      unfold PostRepository.updRow
      simp [PostRepository.rowOfPost]
    rw [hdb]
    simp [hrow]

/-- SubscriberRepository.save is idempotent. -/
theorem subscriber_save_idem (s : Subscriber) (db : List Subscriber) :
    SubscriberRepository.save s (SubscriberRepository.save s db)
      = SubscriberRepository.save s db := by
  unfold SubscriberRepository.save
  cases h : db.any (fun r => r.email == s.email) with
  | true =>
    simp only [h, if_true]
    have hany : ((db.map fun r => if r.email == s.email then { r with is_active := s.is_active } else r).any
        (fun r => r.email == s.email)) = true := by
      rw [List.any_map]
      have hfun : ((fun r : Subscriber => r.email == s.email) ∘
          fun r => if r.email == s.email then { r with is_active := s.is_active } else r)
          = fun r : Subscriber => r.email == s.email := by
        funext r
        cases hr : r.email == s.email <;> simp [Function.comp, hr]
      rw [hfun, h]
    simp only [hany, if_true]
    rw [List.map_map]
    refine List.map_congr_left (fun r _ => ?_)
    cases hr : r.email == s.email <;> simp [Function.comp, hr]
  | false =>
    simp only [h, Bool.false_eq_true, if_false]
    have hany : ((db ++ [s]).any (fun r => r.email == s.email)) = true := by
      simp [List.any_append]
    simp only [hany, if_true]
    rw [List.map_append]
    have hdb : (db.map fun r => if r.email == s.email then { r with is_active := s.is_active } else r) = db := by
      have hall := List.any_eq_false.mp h
      have : (db.map fun r => if r.email == s.email then { r with is_active := s.is_active } else r)
          = db.map id := by
        refine List.map_congr_left (fun r hr => ?_)
        have hne : (r.email == s.email) = false := by
          have := hall r hr
          simpa using this
        simp [hne]
      simpa using this
    rw [hdb]
    simp

/-- AdminRepository.save is idempotent. -/
theorem admin_save_idem (a : Admin) (db : List Admin) :
    AdminRepository.save a (AdminRepository.save a db) = AdminRepository.save a db := by
  unfold AdminRepository.save
  cases h : db.any (fun r => r.username == a.username) with
  | true =>
    simp only [h, if_true]
    have hany : ((db.map fun r => if r.username == a.username then { r with password_hash := a.password_hash } else r).any
        (fun r => r.username == a.username)) = true := by
      rw [List.any_map]
      have hfun : ((fun r : Admin => r.username == a.username) ∘
          fun r => if r.username == a.username then { r with password_hash := a.password_hash } else r)
          = fun r : Admin => r.username == a.username := by
        funext r
        cases hr : r.username == a.username <;> simp [Function.comp, hr]
      rw [hfun, h]
    simp only [hany, if_true]
    rw [List.map_map]
    refine List.map_congr_left (fun r _ => ?_)
    cases hr : r.username == a.username <;> simp [Function.comp, hr]
  | false =>
    simp only [h, Bool.false_eq_true, if_false]
    have hany : ((db ++ [a]).any (fun r => r.username == a.username)) = true := by
      simp [List.any_append]
    simp only [hany, if_true]
    rw [List.map_append]
    have hdb : (db.map fun r => if r.username == a.username then { r with password_hash := a.password_hash } else r) = db := by
      have hall := List.any_eq_false.mp h
      have : (db.map fun r => if r.username == a.username then { r with password_hash := a.password_hash } else r)
          = db.map id := by
        refine List.map_congr_left (fun r hr => ?_)
        have hne : (r.username == a.username) = false := by
          have := hall r hr
          simpa using this
        simp [hne]
      simpa using this
    rw [hdb]
    simp

/-! ## Claim theorems -/

/-- C1: the claimed save-then-refetch round-trip fails in the code.
PostRepository.save omits the title_it and content_it columns from its
INSERT column list and from its ON CONFLICT SET list, so a saved post's
secondary-language fields are silently dropped (stored as NULL); and
re-fetching by key raises TypeError, because _to_entity calls the Post
constructor without the required title_it and content_it arguments.  At
the concrete input below: a post with title_it present is saved into an
empty table, the stored row has NULL title_it, and find_by_id on the
saved row raises. -/
theorem c1_roundtrip_fails :
    examplePostIt.title_it = some "Ghiaccio rilevato" ∧
    (PostRepository.save examplePostIt []).map (fun r => r.title_it) = [none] ∧
    PostRepository.find_by_id (PostRepository.save examplePostIt []) "p3"
      = Except.error Err.typeError :=
  ⟨rfl, rfl, rfl⟩

/-- C2: every row selected by the list_published query has
status published and the requested language, the rows are ordered by
published_at descending (publishedBefore, Postgres DESC with NULLS
FIRST), and at most limit rows are returned; consequently every Post
list that PostRepository.list_published successfully returns also
satisfies the claimed properties (no draft and no foreign-language post
is ever returned, and the length is bounded by limit). -/
theorem c2_list_published_filters (db : List PostRow) (lang : String) (limit offset : Nat) :
    (∀ r ∈ PostRepository.list_published_rows db lang limit offset,
      r.status = "published" ∧ r.language = lang) ∧
    List.Pairwise (fun a b => PostRepository.publishedBefore a b = true)
      (PostRepository.list_published_rows db lang limit offset) ∧
    (PostRepository.list_published_rows db lang limit offset).length ≤ limit ∧
    (∀ ps, PostRepository.list_published db lang limit offset = Except.ok ps →
      (∀ p ∈ ps, p.status = PostStatus.published ∧ p.language = lang) ∧
        ps.length ≤ limit) := by
  refine ⟨?_, ?_, ?_, ?_⟩
  · intro r hr
    have h1 : r ∈ (db.filter (fun r => r.status == "published" && r.language == lang)).mergeSort
        PostRepository.publishedBefore :=
      (list_published_rows_sublist db lang limit offset).subset hr
    have h2 : r ∈ db.filter (fun r => r.status == "published" && r.language == lang) :=
      (List.mergeSort_perm _ _).subset h1
    have h3 := (List.mem_filter.mp h2).2
    simp only [Bool.and_eq_true, beq_iff_eq] at h3
    exact h3
  · exact List.Pairwise.sublist (list_published_rows_sublist db lang limit offset)
      (List.sorted_mergeSort publishedBefore_trans publishedBefore_total _)
  · unfold PostRepository.list_published_rows
    rw [List.length_take]
    exact min_le_left _ _
  · intro ps hps
    obtain ⟨-, hps2⟩ := mapToEntity_ok _ _ hps
    subst hps2
    exact ⟨by simp, by simp⟩

/-- C2 witness: the theorem applied at a concrete input, with the
hypothesis of its last conjunct discharged at the empty table. -/
theorem c2_witness :
    PostRepository.list_published [] "en" 5 0 = Except.ok [] ∧
    ([] : List Post).length ≤ 5 := by
  have hrows : PostRepository.list_published_rows [] "en" 5 0 = [] := by
    simp [PostRepository.list_published_rows]
  have hlp : PostRepository.list_published [] "en" 5 0 = Except.ok [] := by
    unfold PostRepository.list_published
    rw [hrows]
    rfl
  exact ⟨hlp, ((c2_list_published_filters [] "en" 5 0).2.2.2 [] hlp).2⟩

/-- C3: Post.publish on a post whose title is absent (None) or empty
raises ValueError (the spec's ValidationError) and leaves the post
unchanged - in particular status and published_at are exactly what they
were before the failed call, since the raise precedes both
assignments. -/
theorem c3_publish_empty_title (p : Post) (now : Nat)
    (h : p.title = none ∨ p.title = some "") :
    Post.publish p now = (Except.error Err.valueError, p) := by
  rcases h with h | h <;> simp [Post.publish, pyFalsy, h]

/-- C3 witness: the theorem applied to a concrete post with an empty
title. -/
theorem c3_witness :
    Post.publish { examplePublished with title := some "" } 7
      = (Except.error Err.valueError, { examplePublished with title := some "" }) :=
  c3_publish_empty_title { examplePublished with title := some "" } 7 (Or.inr rfl)

/-- C4 counterexample: the claim that invoking publish on an
already-published post does not change published_at is false.
examplePublished is published with published_at 105; calling
Post.publish on it at time 200 succeeds and overwrites published_at
with 200. -/
theorem c4_counterexample :
    examplePublished.status = PostStatus.published ∧
    examplePublished.published_at = some 105 ∧
    (Post.publish examplePublished 200).1 = Except.ok () ∧
    (Post.publish examplePublished 200).2.published_at = some 200 :=
  ⟨rfl, rfl, rfl, rfl⟩

/-- C4 amended: Post.publish itself restamps published_at
unconditionally, but the admin edit handler guards the call with
post.status != PUBLISHED, so through the edit operation an
already-published post keeps its published_at (first conjunct); the
edit logic never clears a set published_at (second conjunct); and every
successful publish stamps published_at with the current time
(third conjunct). -/
theorem c4_amended :
    (∀ (sf : Option String → String) (p : Post) (f : Main.EditForm) (now : Nat),
      p.status = PostStatus.published → f.status = some "published" →
      (Main.admin_edit_apply sf p f now).map (fun p2 => p2.published_at)
        = Except.ok p.published_at) ∧
    (∀ (sf : Option String → String) (p : Post) (f : Main.EditForm) (now : Nat) (p2 : Post),
      Main.admin_edit_apply sf p f now = Except.ok p2 →
      p.published_at ≠ none → p2.published_at ≠ none) ∧
    (∀ (p : Post) (now : Nat),
      (Post.publish p now).1 = Except.ok () →
      (Post.publish p now).2.published_at = some now) := by
  refine ⟨?_, ?_, ?_⟩
  · intro sf p f now hp hf
    simp [Main.admin_edit_apply, hp, hf, Except.map]
  · intro sf p f now p2 h hne
    simp only [Main.admin_edit_apply, Post.publish] at h
    split at h
    · cases hfal : pyFalsy f.title
      · rw [hfal] at h
        simp at h
        subst h
        simp
      · rw [hfal] at h
        simp at h
    · split at h
      · simp at h
        subst h
        simpa using hne
      · simp at h
        subst h
        simpa using hne
  · intro p now h
    simp only [Post.publish] at h ⊢
    split at h <;> simp_all

/-- C4 amended witness: the edit logic applied to the published example
post with a form whose status is published leaves published_at at its
stored value. -/
theorem c4_amended_witness :
    (Main.admin_edit_apply (fun _ => "water-ice-detected") examplePublished
        examplePublishForm 300).map (fun p2 => p2.published_at)
      = Except.ok examplePublished.published_at :=
  c4_amended.1 (fun _ => "water-ice-detected") examplePublished examplePublishForm 300 rfl rfl

/-- C5: the claimed like behaviour fails in the code.  A fresh like
request for the slug of an existing post does not increment the like
counter by 1: find_by_slug raises TypeError inside _to_entity (missing
title_it and content_it constructor arguments), so the request aborts
after a single query, before any counter update or save (first
conjunct).  The already-acknowledged branch - the only part of the
claim the code satisfies - answers already-acknowledged without any
query and without touching the table (second conjunct). -/
theorem c5_like_increment_crashes :
    Main.post_like "en" "water-ice-detected" "" true [exampleRow]
      = ([Main.Query.findBySlugQ], Except.error Err.typeError) ∧
    Main.post_like "en" "water-ice-detected" "water-ice-detected" true [exampleRow]
      = ([], Except.ok (Main.LikeResp.jsonAlready, [exampleRow], none)) :=
  ⟨rfl, rfl⟩

/-- C6: save is idempotent for all three repositories: a second save of
the same entity with identical field values leaves the table exactly as
after the first save - no duplicate row, no changed row.  Post upserts
by id, Subscriber by email, Admin by username, matching each ON
CONFLICT target. -/
theorem c6_save_idempotent (p : Post) (s : Subscriber) (a : Admin)
    (dbP : List PostRow) (dbS : List Subscriber) (dbA : List Admin) :
    PostRepository.save p (PostRepository.save p dbP) = PostRepository.save p dbP ∧
    SubscriberRepository.save s (SubscriberRepository.save s dbS)
      = SubscriberRepository.save s dbS ∧
    AdminRepository.save a (AdminRepository.save a dbA) = AdminRepository.save a dbA :=
  ⟨post_save_idem p dbP, subscriber_save_idem s dbS, admin_save_idem a dbA⟩

/-- C7: every public route - home, post detail, archive, the posts API,
search, RSS, like and subscribe - checks the requested language against
SUPPORTED_LANGS first and answers HTTPException(404) for an unsupported
language with an empty query trace: zero storage queries are issued. -/
theorem c7_unsupported_language (lang : String) (h : lang ∉ Main.SUPPORTED_LANGS) :
    (∀ db, Main.home lang db = ([], Except.error (Err.http 404))) ∧
    (∀ slug db, Main.post_detail lang slug db = ([], Except.error (Err.http 404))) ∧
    (∀ db, Main.archive lang db = ([], Except.error (Err.http 404))) ∧
    (∀ offset limit db, Main.api_list_posts lang offset limit db
      = ([], Except.error (Err.http 404))) ∧
    (∀ q db, Main.search lang q db = ([], Except.error (Err.http 404))) ∧
    (∀ db, Main.rss_feed lang db = ([], Except.error (Err.http 404))) ∧
    (∀ slug cookie wantsJson db, Main.post_like lang slug cookie wantsJson db
      = ([], Except.error (Err.http 404))) ∧
    (∀ email wantsJson now subs, Main.subscribe lang email wantsJson now subs
      = ([], Except.error (Err.http 404))) := by
  refine ⟨?_, ?_, ?_, ?_, ?_, ?_, ?_, ?_⟩ <;> intros <;>
    simp [Main.home, Main.post_detail, Main.archive, Main.api_list_posts, Main.search,
      Main.rss_feed, Main.post_like, Main.subscribe, h]

/-- C7 witness: the theorem applied at the unsupported language fr on
concrete requests. -/
theorem c7_witness :
    Main.home "fr" [exampleRow] = ([], Except.error (Err.http 404)) ∧
    Main.post_like "fr" "water-ice-detected" "" true [exampleRow]
      = ([], Except.error (Err.http 404)) ∧
    Main.subscribe "fr" (some "crew@mars.org") true 0 []
      = ([], Except.error (Err.http 404)) := by
  have h := c7_unsupported_language "fr" (by decide)
  exact ⟨h.1 _, h.2.2.2.2.2.2.1 _ _ _ _, h.2.2.2.2.2.2.2 _ _ _ _⟩

/-- C8 counterexample: the claim that a draft post reached by slug is
served with its view counter incremented is false.  On a table holding
one draft row, the public detail route fetches the row (the query has
no status filter) but then raises TypeError in _to_entity, so the
request errors after one query instead of serving the draft or saving
an incremented view counter. -/
theorem c8_counterexample :
    exampleDraftRow.status = "draft" ∧
    Main.post_detail "en" "hidden-draft" [exampleDraftRow]
      = ([Main.Query.findBySlugQ], Except.error Err.typeError) :=
  ⟨rfl, rfl⟩

/-- C8 amended: the find_by_slug query indeed has no status or language
filter - whenever any row carries the requested slug, the lookup
returns a row with that slug, draft or not (first conjunct) - but the
detail route then errors in the row-to-entity mapping instead of
serving the post (second conjunct). -/
theorem c8_amended (lang slug : String) (db : List PostRow) (r : PostRow)
    (hl : lang ∈ Main.SUPPORTED_LANGS) (hr : r ∈ db) (hs : r.slug = slug) :
    (∃ row, PostRepository.find_by_slug_row db slug = some row ∧ row.slug = slug) ∧
    Main.post_detail lang slug db
      = ([Main.Query.findBySlugQ], Except.error Err.typeError) := by
  have hex : (db.find? (fun x => x.slug == slug)).isSome := by
    rw [List.find?_isSome]
    exact ⟨r, hr, by simp [hs]⟩
  obtain ⟨row, hrow⟩ := Option.isSome_iff_exists.mp hex
  have hrs : row.slug = slug := by
    have := List.find?_some hrow
    simpa using this
  refine ⟨⟨row, hrow, hrs⟩, ?_⟩
  simp [Main.post_detail, hl, PostRepository.find_by_slug,
    PostRepository.find_by_slug_row, hrow, PostRepository.to_entity, Except.map]

/-- C8 amended witness: the theorem applied to a concrete table holding
one published row. -/
theorem c8_amended_witness :
    Main.post_detail "en" "water-ice-detected" [exampleRow]
      = ([Main.Query.findBySlugQ], Except.error Err.typeError) :=
  (c8_amended "en" "water-ice-detected" [exampleRow] exampleRow (by decide)
    (List.mem_singleton.mpr rfl) rfl).2

/-- C9 counterexample: the claim that the edit operation reverts a
published post to draft is false end to end: on a table holding the
published example row, the authenticated edit request with a draft form
raises TypeError inside find_by_id before any field is assigned, so no
revert and no save happens. -/
theorem c9_counterexample :
    Main.admin_post_edit_post (fun _ => "water-ice-detected") true "p1"
        exampleDraftForm 300 [exampleRow]
      = ([Main.Query.findByIdQ], Except.error Err.typeError) :=
  rfl

/-- C9 amended: the edit handler's own field-assignment and status
logic (main.py lines 154-166), applied to a fetched post with a draft
form, sets status to draft, leaves published_at untouched, leaves
id, language, views, likes and created_at unchanged, and assigns
exactly the form values to the assigned fields; but the edit route
itself errors in find_by_id before this logic runs (see the
counterexample). -/
theorem c9_amended (sf : Option String → String) (p : Post) (f : Main.EditForm)
    (now : Nat) (h : f.status = some "draft") :
    ∃ p2, Main.admin_edit_apply sf p f now = Except.ok p2 ∧
      p2.status = PostStatus.draft ∧
      p2.published_at = p.published_at ∧
      p2.id = p.id ∧ p2.language = p.language ∧ p2.views = p.views ∧
      p2.likes = p.likes ∧ p2.created_at = p.created_at ∧
      p2.title = f.title ∧ p2.title_it = f.title_it ∧
      p2.content = f.content ∧ p2.content_it = f.content_it ∧
      p2.media_url = f.media_url ∧ p2.media_type = f.media_type ∧
      p2.slug = sf f.title ∧ p2.tags = Main.parseTags (f.tags.getD "") := by
  refine ⟨{ p with
      title := f.title, title_it := f.title_it, slug := sf f.title,
      content := f.content, content_it := f.content_it,
      media_url := f.media_url, media_type := f.media_type,
      tags := Main.parseTags (f.tags.getD ""), status := PostStatus.draft },
    ?_, rfl, rfl, rfl, rfl, rfl, rfl, rfl, rfl, rfl, rfl, rfl, rfl, rfl, rfl, rfl⟩
  simp [Main.admin_edit_apply, h]

/-- C9 amended witness: the edit logic applied to the published example
post with the concrete draft form yields a draft post whose
published_at is still the stored one. -/
theorem c9_amended_witness :
    (Main.admin_edit_apply (fun _ => "water-ice-detected") examplePublished
        exampleDraftForm 300).map (fun p2 => (p2.status, p2.published_at))
      = Except.ok (PostStatus.draft, some 105) := by
  obtain ⟨p2, he, hst, hpa, -⟩ :=
    c9_amended (fun _ => "water-ice-detected") examplePublished exampleDraftForm 300 rfl
  rw [he]
  show Except.ok (p2.status, p2.published_at) = Except.ok (PostStatus.draft, some 105)
  rw [hst, hpa]
  rfl

/-- C10 counterexample: the claim that the slug of a missing post,
once acknowledged, makes a subsequent like request from the same client
a no-op is false for a slug containing a comma.  Liking the missing
slug a,b with an empty cookie succeeds with likes 0 and sets the cookie
to a,b; but re-presenting that cookie splits it into a and b, so the
second request for a,b is NOT treated as already acknowledged - it runs
the lookup again and answers success again. -/
theorem c10_counterexample :
    Main.post_like "en" "a,b" "" true []
      = ([Main.Query.findBySlugQ],
          Except.ok (Main.LikeResp.jsonLiked 0, [], some "a,b")) ∧
    Main.post_like "en" "a,b" "a,b" true []
      = ([Main.Query.findBySlugQ],
          Except.ok (Main.LikeResp.jsonLiked 0, [], some "a,b,a,b")) :=
  ⟨rfl, rfl⟩

/-- C10 amended: a like request for a slug matching no row succeeds
with likes 0, issues only the lookup query, leaves the table untouched
and sets the cookie to the comma-joined old list plus the slug (first
conjunct); and any like request whose parsed cookie list already
contains the slug is a query-free no-op answering already-acknowledged
and setting no cookie (second conjunct).  A slug containing a comma is
split apart on the next parse, so it is not recognized as acknowledged
(see the counterexample). -/
theorem c10_amended :
    (∀ lang slug cookie db, lang ∈ Main.SUPPORTED_LANGS →
      slug ∉ Main.parseLikedCookie cookie →
      (∀ r ∈ db, (r.slug == slug) = false) →
      Main.post_like lang slug cookie true db =
        ([Main.Query.findBySlugQ],
          Except.ok (Main.LikeResp.jsonLiked 0, db,
            some (String.intercalate "," (Main.parseLikedCookie cookie ++ [slug]))))) ∧
    (∀ lang slug cookie wantsJson db, lang ∈ Main.SUPPORTED_LANGS →
      slug ∈ Main.parseLikedCookie cookie →
      Main.post_like lang slug cookie wantsJson db =
        ([], Except.ok
          ((if wantsJson then Main.LikeResp.jsonAlready
            else Main.LikeResp.redirectResp ("/" ++ lang ++ "/post/" ++ slug)),
            db, none))) := by
  constructor
  · intro lang slug cookie db hl hc hdb
    have hfind : db.find? (fun r => r.slug == slug) = none :=
      List.find?_eq_none.mpr (fun r hr => by simp [hdb r hr])
    simp [Main.post_like, hl, hc, PostRepository.find_by_slug,
      PostRepository.find_by_slug_row, hfind]
  · intro lang slug cookie wantsJson db hl hc
    simp [Main.post_like, hl, hc]

/-- C10 amended witness: both conjuncts applied at concrete requests -
a fresh like of the missing slug mars on an empty table, and a repeat
like with a cookie already holding mars. -/
theorem c10_amended_witness :
    Main.post_like "en" "mars" "" true []
      = ([Main.Query.findBySlugQ],
          Except.ok (Main.LikeResp.jsonLiked 0, [], some "mars")) ∧
    Main.post_like "en" "mars" "mars" true []
      = ([], Except.ok (Main.LikeResp.jsonAlready, [], none)) := by
  constructor
  · exact c10_amended.1 "en" "mars" "" [] (by decide) (by decide)
      (fun r hr => absurd hr (List.not_mem_nil r))
  · exact c10_amended.2 "en" "mars" "mars" true [] (by decide) (by decide)
